import Mathlib

/-
Shallow embedding of the ephemeral two-party chat backend in `src/main.py`.

Python dicts are modelled as insertion-ordered association lists
(`List (K × V)`), and the module-level stores as one `ServerState` record
threaded through every endpoint.  Each Flask endpoint becomes a pure
function `ServerState → args → Resp × ServerState`.

Wall-clock time is an explicit parameter `now : ℤ` of every request.  The
code reads `time.time()`, a real-valued clock, but the only operations ever
applied to it are subtraction, comparison against the constant thresholds
3600 / 5 / 30, the integer part `int(now)` in the login token, and
`int(now * 1000)` in the message id; the model works at integer clock
granularity, where `int` is the identity.  Successive requests may observe
equal clock values (the clock is coarse relative to the request rate): in
particular two logins whose clock readings share the same integer part,
which produce the identical token string in the code, are represented by two
logins at the same `now`.

The transport layer (Flask routing, CORS, header parsing, the `/upload`
base64 encoder, and `format_last_seen` string rendering) is glue outside the
core and is not modelled; the token is passed as a plain argument.
-/

set_option maxRecDepth 10000

namespace ChatApp

/-! ### Python-dict helpers (insertion-ordered association lists) -/

/-- Lookup in a Python dict: first entry with the given key. -/
def dget? {K V : Type} [DecidableEq K] (d : List (K × V)) (k : K) : Option V :=
  match d with
  | [] => none
  | (k1, v) :: rest => if k1 = k then some v else dget? rest k

/-- `dict.get(k, v0)`. -/
def dgetD {K V : Type} [DecidableEq K] (d : List (K × V)) (k : K) (v0 : V) : V :=
  (dget? d k).getD v0

/-- `dict[k] = v`: update in place if the key is present (keeping its
position, as Python dicts do), otherwise append at the end. -/
def dset {K V : Type} [DecidableEq K] (d : List (K × V)) (k : K) (v : V) : List (K × V) :=
  match d with
  | [] => [(k, v)]
  | (k1, v1) :: rest => if k1 = k then (k1, v) :: rest else (k1, v1) :: dset rest k v

/-- `dict.pop(k, None)`: remove the entry with the given key, if present. -/
def dpop {K V : Type} [DecidableEq K] (d : List (K × V)) (k : K) : List (K × V) :=
  match d with
  | [] => []
  | (k1, v1) :: rest => if k1 = k then rest else (k1, v1) :: dpop rest k

/-! ### Data model -/

/-- Python `str.strip()`: drop whitespace from both ends (structurally, so
that proofs can evaluate it; `String.trim` computes the same characters). -/
def pyStrip (s : String) : String :=
  ⟨((s.data.dropWhile Char.isWhitespace).reverse.dropWhile Char.isWhitespace).reverse⟩

/-- Truthiness of an optional string (`data.get("url")` in a boolean
context): false for a missing field and for the empty string. -/
def truthy : Option String → Bool
  | none => false
  | some s => !(s == "")

/-- A stored chat message, as built by the `/send` endpoint.  Keys that a
given branch of the code never writes (`url` for text messages, `edited` /
`edit_timestamp` until an edit happens) are modelled as `none` / `false`. -/
structure Message where
  id : String
  sender : String
  timestamp : ℤ
  seen_by : Option String
  reactions : List (String × List String)
  reply_to : Option String
  type : String
  text : Option String
  url : Option String
  edited : Bool
  edit_timestamp : Option ℤ
deriving DecidableEq

/-- The single typing slot per chat, from `/live_typing`. -/
structure TypingStatus where
  sender : String
  text : String
  timestamp : ℤ
deriving DecidableEq

/-- The module-level mutable stores of `main.py`. -/
structure ServerState where
  messages : List (String × List Message)
  typing_status : List (String × TypingStatus)
  online_status : List ((String × String) × ℤ)
  session_tokens : List ((String × String) × List (String × ℤ))
  unread_counts : List (String × List (String × Nat))
deriving DecidableEq

def ServerState.empty : ServerState :=
  { messages := [], typing_status := [], online_status := [],
    session_tokens := [], unread_counts := [] }

/-- Endpoint results: the JSON bodies (and error status codes) the handlers
return. -/
inductive Resp where
  | ok : Resp
  | okToken (session_token : String) : Resp
  | loginFail (error : String) : Resp
  | okCount (count : Nat) : Resp
  | okMessages (msgs : List Message) : Resp
  | okTyping (status : Option TypingStatus) : Resp
  | err (status : Nat) (msg : String) : Resp
deriving DecidableEq

/-! ### Session registry -/

/-- `verify_token(chat_id, sender, token)`: false on an empty token; false
when the token is not in the key's dict; on an entry older than 3600 s the
token is evicted and the answer is false; otherwise the timestamp is
refreshed to `now` and the answer is true. -/
def verify_token (st : ServerState) (chat_id sender token : String) (now : ℤ) :
    Bool × ServerState :=
  if token = "" then (false, st)
  else
    match dget? (dgetD st.session_tokens (chat_id, sender) []) token with
    | none => (false, st)
    | some ts =>
      if now - ts > 3600 then
        let d := dpop (dgetD st.session_tokens (chat_id, sender) []) token
        (false, { st with session_tokens := dset st.session_tokens (chat_id, sender) d })
      else
        let d := dset (dgetD st.session_tokens (chat_id, sender) []) token now
        (true, { st with session_tokens := dset st.session_tokens (chat_id, sender) d })

/-- The expired-token cleanup loop at the top of `login` (pop every entry
older than 3600 s, keeping the order of the survivors). -/
def pruneExpired (tokens : List (String × ℤ)) (now : ℤ) : List (String × ℤ) :=
  tokens.filter (fun p => !(decide (now - p.2 > 3600)))

/-- Stable insertion into a timestamp-sorted list (ascending). -/
def sortInsert (p : String × ℤ) : List (String × ℤ) → List (String × ℤ)
  | [] => [p]
  | q :: rest => if q.2 < p.2 then q :: sortInsert p rest else p :: q :: rest

/-- `sorted(tokens.items(), key=timestamp)` — a stable ascending sort, as
Python's `sorted` is. -/
def sortByTs : List (String × ℤ) → List (String × ℤ)
  | [] => []
  | p :: rest => sortInsert p (sortByTs rest)

/-- Keep only the 2 most recent tokens: pop every token of
`sorted(items)[:-2]`. -/
def evictOldest (d : List (String × ℤ)) : List (String × ℤ) :=
  (List.take (d.length - 2) (sortByTs d)).foldl (fun acc p => dpop acc p.1) d

/-- `/login`: prune expired tokens for the key (this mutates the stored dict
only when the key is present), then on password "1" store the fresh token
`f"{sender}-{int(now)}"` and evict down to the 2 most recent. -/
def login (st : ServerState) (chat_id password sender : String) (now : ℤ) :
    Resp × ServerState :=
  let key := (chat_id, sender)
  let st1 :=
    match dget? st.session_tokens key with
    | none => st
    | some tokens =>
        { st with session_tokens := dset st.session_tokens key (pruneExpired tokens now) }
  if password = "1" then
    let token := sender ++ "-" ++ toString now
    let d1 := dset (dgetD st1.session_tokens key []) token now
    let d2 := if d1.length > 2 then evictOldest d1 else d1
    (Resp.okToken token, { st1 with session_tokens := dset st1.session_tokens key d2 })
  else
    (Resp.loginFail "Invalid password", st1)

/-- `/logout_user` and `/logout_agent`: no token verification; pop exactly
the presented token (absence is not an error). -/
def logout (st : ServerState) (chat_id sender token : String) : Resp × ServerState :=
  match dget? st.session_tokens (chat_id, sender) with
  | none => (Resp.ok, st)
  | some tokens =>
      let d := dpop tokens token
      (Resp.ok, { st with session_tokens := dset st.session_tokens (chat_id, sender) d })

/-! ### Message store -/

/-- `str(int(time.time() * 1000))` — the fresh message id. -/
def generate_message_id (now : ℤ) : String :=
  toString (now * 1000)

/-- Append the freshly built message to the channel and increment the other
party's unread counter (`"agent"` when the sender is `"user"`, `"user"`
otherwise) — the tail of the `/send` handler. -/
def appendAndCount (st : ServerState) (chat_id sender : String) (msg : Message) :
    ServerState :=
  let l := dset st.messages chat_id (dgetD st.messages chat_id [] ++ [msg])
  let st1 := { st with messages := l }
  let other_party := if sender = "user" then "agent" else "user"
  let cnt := dgetD (dgetD st1.unread_counts chat_id []) other_party 0
  let d := dset (dgetD st1.unread_counts chat_id []) other_party (cnt + 1)
  { st1 with unread_counts := dset st1.unread_counts chat_id d }

/-- `/send`: after token verification, build the message; the image branch is
taken only when `type == "image"` and the url is truthy, otherwise the text
is stripped and rejected if empty. -/
def send (st : ServerState) (chat_id sender token : String) (now : ℤ)
    (ty url text reply_to : Option String) : Resp × ServerState :=
  let v := verify_token st chat_id sender token now
  if v.1 then
    let message_id := generate_message_id now
    if ty = some "image" ∧ truthy url = true then
      let msg : Message :=
        { id := message_id, sender := sender, timestamp := now, seen_by := none,
          reactions := [], reply_to := reply_to, type := "image", text := none,
          url := url, edited := false, edit_timestamp := none }
      (Resp.ok, appendAndCount v.2 chat_id sender msg)
    else
      let t := pyStrip (text.getD "")
      if t = "" then (Resp.err 400 "Empty message", v.2)
      else
        let msg : Message :=
          { id := message_id, sender := sender, timestamp := now, seen_by := none,
            reactions := [], reply_to := reply_to, type := "text", text := some t,
            url := none, edited := false, edit_timestamp := none }
        (Resp.ok, appendAndCount v.2 chat_id sender msg)
  else (Resp.err 403 "Unauthorized", v.2)

/-- The reaction update of `/react` on the located message: ensure the
emoji key exists, then append the participant if absent.  It never removes a
participant and never prunes a key. -/
def reactMsg (m : Message) (user_id reaction : String) : Message :=
  let lst := dgetD m.reactions reaction []
  if user_id ∈ lst then m
  else { m with reactions := dset m.reactions reaction (lst ++ [user_id]) }

/-- The scan of `/react` over the channel: update the first message with the
given id, `none` when no id matches. -/
def reactList (message_id user_id reaction : String) : List Message → Option (List Message)
  | [] => none
  | m :: rest =>
    if m.id = message_id then some (reactMsg m user_id reaction :: rest)
    else (reactList message_id user_id reaction rest).map (fun l => m :: l)

/-- `/react`. -/
def react (st : ServerState) (chat_id message_id reaction user_id token : String)
    (now : ℤ) : Resp × ServerState :=
  let v := verify_token st chat_id user_id token now
  if v.1 then
    match reactList message_id user_id reaction (dgetD v.2.messages chat_id []) with
    | some l => (Resp.ok, { v.2 with messages := dset v.2.messages chat_id l })
    | none => (Resp.err 404 "Message not found", v.2)
  else (Resp.err 403 "Unauthorized", v.2)

/-- The scan of `/delete_message`: pop the first message whose id AND sender
both match (a non-owner request matches nothing); `none` otherwise. -/
def deleteList (message_id user_id : String) : List Message → Option (List Message)
  | [] => none
  | m :: rest =>
    if m.id = message_id ∧ m.sender = user_id then some rest
    else (deleteList message_id user_id rest).map (fun l => m :: l)

/-- `/delete_message`: the matched message is removed from the sequence
outright (`chat_messages.pop(i)`), and both "absent id" and "non-owner" fall
through to the same 404 response. -/
def delete_message (st : ServerState) (chat_id message_id user_id token : String)
    (now : ℤ) : Resp × ServerState :=
  let v := verify_token st chat_id user_id token now
  if v.1 then
    match deleteList message_id user_id (dgetD v.2.messages chat_id []) with
    | some l => (Resp.ok, { v.2 with messages := dset v.2.messages chat_id l })
    | none => (Resp.err 404 "Message not found or unauthorized", v.2)
  else (Resp.err 403 "Unauthorized", v.2)

/-- The scan of `/edit_message`: on the first message whose id and sender
both match, store the new text verbatim (no strip, no emptiness check) and
set the edited flag and timestamp. -/
def editList (message_id user_id new_text : String) (now : ℤ) :
    List Message → Option (List Message)
  | [] => none
  | m :: rest =>
    if m.id = message_id ∧ m.sender = user_id then
      some ({ m with text := some new_text, edited := true, edit_timestamp := some now } :: rest)
    else (editList message_id user_id new_text now rest).map (fun l => m :: l)

/-- `/edit_message`. -/
def edit_message (st : ServerState) (chat_id message_id new_text user_id token : String)
    (now : ℤ) : Resp × ServerState :=
  let v := verify_token st chat_id user_id token now
  if v.1 then
    match editList message_id user_id new_text now (dgetD v.2.messages chat_id []) with
    | some l => (Resp.ok, { v.2 with messages := dset v.2.messages chat_id l })
    | none => (Resp.err 404 "Message not found or unauthorized", v.2)
  else (Resp.err 403 "Unauthorized", v.2)

/-- `/messages/<chat_id>`: after the viewer-parameter check and token
verification, return the stored message list verbatim (no projection of any
kind); when `active` and the last stored message was sent by someone else,
first set its `seen_by` to the viewer and reset the viewer's unread entry to
0 when that entry exists. -/
def get_messages (st : ServerState) (chat_id viewer token : String) (now : ℤ)
    (active : Bool) : Resp × ServerState :=
  if viewer = "" then (Resp.err 400 "Viewer parameter required", st)
  else
    let v := verify_token st chat_id viewer token now
    if v.1 then
      let st1 := v.2
      let chat := dgetD st1.messages chat_id []
      match chat.getLast? with
      | none => (Resp.okMessages chat, st1)
      | some last =>
        if active = true ∧ last.sender ≠ viewer then
          let chat2 := chat.dropLast ++ [{ last with seen_by := some viewer }]
          let st2 := { st1 with messages := dset st1.messages chat_id chat2 }
          let st3 :=
            match dget? (dgetD st2.unread_counts chat_id []) viewer with
            | some _ =>
                let d := dset (dgetD st2.unread_counts chat_id []) viewer 0
                { st2 with unread_counts := dset st2.unread_counts chat_id d }
            | none => st2
          (Resp.okMessages chat2, st3)
        else (Resp.okMessages chat, st1)
    else (Resp.err 403 "Session expired or invalid", v.2)

/-- `/unread_count/<chat_id>/<user_id>`: no token is taken and no check is
performed; a plain dictionary lookup with default 0. -/
def get_unread_count (st : ServerState) (chat_id user_id : String) :
    Resp × ServerState :=
  (Resp.okCount (dgetD (dgetD st.unread_counts chat_id []) user_id 0), st)

/-- `/live_typing`. -/
def live_typing (st : ServerState) (chat_id sender text token : String) (now : ℤ) :
    Resp × ServerState :=
  let v := verify_token st chat_id sender token now
  if v.1 then
    let slot : TypingStatus := { sender := sender, text := text, timestamp := now }
    (Resp.ok, { v.2 with typing_status := dset v.2.typing_status chat_id slot })
  else (Resp.err 403 "Unauthorized", v.2)

/-- `/get_live_typing/<chat_id>`: a slot older than 5 s is popped and an
empty object returned. -/
def get_live_typing (st : ServerState) (chat_id viewer token : String) (now : ℤ) :
    Resp × ServerState :=
  if viewer = "" then (Resp.err 400 "Viewer parameter required", st)
  else
    let v := verify_token st chat_id viewer token now
    if v.1 then
      match dget? v.2.typing_status chat_id with
      | none => (Resp.okTyping none, v.2)
      | some s =>
        if now - s.timestamp > 5 then
          (Resp.okTyping none, { v.2 with typing_status := dpop v.2.typing_status chat_id })
        else (Resp.okTyping (some s), v.2)
    else (Resp.err 403 "Session expired or invalid", v.2)

/-- `/mark_online`: refresh the presented token's timestamp once more and
record the presence heartbeat.  (After a successful verification the key is
present, so the unguarded Python indexing cannot fail.) -/
def mark_online (st : ServerState) (chat_id sender token : String) (now : ℤ) :
    Resp × ServerState :=
  let v := verify_token st chat_id sender token now
  if v.1 then
    let d := dset (dgetD v.2.session_tokens (chat_id, sender) []) token now
    (Resp.ok, { v.2 with
      session_tokens := dset v.2.session_tokens (chat_id, sender) d,
      online_status := dset v.2.online_status (chat_id, sender) now })
  else (Resp.err 403 "Unauthorized", v.2)

/-- `/clear_chat/<chat_id>`. -/
def clear_chat (st : ServerState) (chat_id sender token : String) (now : ℤ) :
    Resp × ServerState :=
  let v := verify_token st chat_id sender token now
  if v.1 then (Resp.ok, { v.2 with messages := dset v.2.messages chat_id [] })
  else (Resp.err 403 "Unauthorized", v.2)

/-! ### Field-update helpers (for stating which store an operation touches) -/

/-- Replace the token dict of one channel key, leaving every other store
untouched. -/
def setTokens (st : ServerState) (key : String × String) (d : List (String × ℤ)) :
    ServerState :=
  { st with session_tokens := dset st.session_tokens key d }

/-- Replace one channel's message list, leaving every other store
untouched. -/
def setChat (st : ServerState) (chat_id : String) (l : List Message) : ServerState :=
  { st with messages := dset st.messages chat_id l }

/-- The participant whose unread counter `/send` increments:
`"agent" if sender == "user" else "user"`. -/
def otherParty (sender : String) : String :=
  if sender = "user" then "agent" else "user"

/-! ### Concrete runs (used by witnesses and counterexamples) -/

/-- State after `login("c1", "1", "user")` at time 1000: one token
`"user-1000"`. -/
def stLogin : ServerState := (login ServerState.empty "c1" "1" "user" 1000).2

/-- After the user then sends the text "hi" at time 1001 (message id
`"1001000"`). -/
def stMsg : ServerState := (send stLogin "c1" "user" "user-1000" 1001 none none (some "hi") none).2

/-- The message stored in `stMsg`. -/
def msgHi : Message :=
  { id := "1001000", sender := "user", timestamp := 1001, seen_by := none,
    reactions := [], reply_to := none, type := "text", text := some "hi",
    url := none, edited := false, edit_timestamp := none }

/-- `stMsg` after the agent also logs in (token `"agent-1001"`). -/
def stBoth : ServerState := (login stMsg "c1" "1" "agent" 1001).2

/-- `stMsg` after the user deletes the message at time 1002. -/
def stDel : ServerState := (delete_message stMsg "c1" "1001000" "user" "user-1000" 1002).2

/-- `stMsg` after one reaction "like" by the user at time 1002. -/
def stReact : ServerState := (react stMsg "c1" "1001000" "like" "user" "user-1000" 1002).2

/-- After the user sends an image (url "u") at time 1001 instead. -/
def stImg : ServerState :=
  (send stLogin "c1" "user" "user-1000" 1001 (some "image") (some "u") none none).2

/-- `stImg` after the user edits that image message with text "newtext". -/
def stImgEdited : ServerState :=
  (edit_message stImg "c1" "1001000" "newtext" "user" "user-1000" 1002).2

/-! ### Dictionary laws -/

theorem dget?_dset_self {K V : Type} [DecidableEq K] (d : List (K × V)) (k : K) (v : V) :
    dget? (dset d k v) k = some v := by
  induction d with
  | nil => simp [dset, dget?]
  | cons p rest ih =>
    by_cases h : p.1 = k
    · simp [dset, dget?, h]
    · simp [dset, dget?, h, ih]

theorem dgetD_dset_self {K V : Type} [DecidableEq K] (d : List (K × V)) (k : K) (v v0 : V) :
    dgetD (dset d k v) k v0 = v := by
  simp [dgetD, dget?_dset_self]

theorem dgetD_of_dget?_none {K V : Type} [DecidableEq K] (d : List (K × V)) (k : K) (v0 : V)
    (h : dget? d k = none) : dgetD d k v0 = v0 := by
  simp [dgetD, h]

theorem dset_dset_self {K V : Type} [DecidableEq K] (d : List (K × V)) (k : K) (v1 v2 : V) :
    dset (dset d k v1) k v2 = dset d k v2 := by
  induction d with
  | nil => simp [dset]
  | cons p rest ih =>
    by_cases h : p.1 = k
    · simp [dset, h]
    · simp [dset, h, ih]

/-! ### String facts -/

theorem append_str_ne_empty (s x : String) : s ++ "-" ++ x ≠ "" := by
  intro h
  have hl := congrArg String.length h
  rw [String.length_append, String.length_append] at hl
  have h1 : String.length "-" = 1 := rfl
  have h0 : String.length "" = 0 := rfl
  omega

/-! ### verify_token structure -/

/-- Token verification never touches the message, typing, presence or
unread stores. -/
theorem verify_token_preserves (st : ServerState) (c s t : String) (n : ℤ) :
    (verify_token st c s t n).2.messages = st.messages ∧
    (verify_token st c s t n).2.typing_status = st.typing_status ∧
    (verify_token st c s t n).2.online_status = st.online_status ∧
    (verify_token st c s t n).2.unread_counts = st.unread_counts := by
  unfold verify_token
  split
  · exact ⟨rfl, rfl, rfl, rfl⟩
  · split
    · exact ⟨rfl, rfl, rfl, rfl⟩
    · split
      · exact ⟨rfl, rfl, rfl, rfl⟩
      · exact ⟨rfl, rfl, rfl, rfl⟩

/-- What a successful verification means: the token is nonempty, present,
not expired, and its timestamp is refreshed to `now`. -/
theorem verify_token_true (st : ServerState) (c s t : String) (n : ℤ)
    (h : (verify_token st c s t n).1 = true) :
    t ≠ "" ∧ ∃ ts, dget? (dgetD st.session_tokens (c, s) []) t = some ts ∧
      ¬ n - ts > 3600 ∧
      (verify_token st c s t n).2
        = setTokens st (c, s) (dset (dgetD st.session_tokens (c, s) []) t n) := by
  unfold verify_token at h
  split at h
  · simp at h
  · rename_i hne
    split at h
    · simp at h
    · rename_i ts hget
      split at h
      · simp at h
      · rename_i hexp
        refine ⟨hne, ts, hget, hexp, ?_⟩
        unfold verify_token
        simp [hne, hget, hexp, setTokens]

/-- What a failed verification can do to the state: nothing, or evict
exactly the expired token it was shown. -/
theorem verify_token_false (st : ServerState) (c s t : String) (n : ℤ)
    (h : (verify_token st c s t n).1 = false) :
    (verify_token st c s t n).2 = st ∨
    ∃ ts, dget? (dgetD st.session_tokens (c, s) []) t = some ts ∧ n - ts > 3600 ∧
      (verify_token st c s t n).2
        = setTokens st (c, s) (dpop (dgetD st.session_tokens (c, s) []) t) := by
  unfold verify_token at h
  split at h
  · rename_i hemp
    left; unfold verify_token; simp [hemp]
  · rename_i hne
    split at h
    · rename_i hget
      left; unfold verify_token; simp [hne, hget]
    · rename_i ts hget
      split at h
      · rename_i hexp
        right
        refine ⟨ts, hget, hexp, ?_⟩
        unfold verify_token
        simp [hne, hget, hexp, setTokens]
      · simp at h

/-- A token that just verified verifies again at any time within the TTL,
even if the message store changed in between (verification reads and writes
only `session_tokens`). -/
theorem verify_token_again (st st1 : ServerState) (c s t : String) (n n2 : ℤ)
    (h : (verify_token st c s t n).1 = true)
    (hst : st1.session_tokens = (verify_token st c s t n).2.session_tokens)
    (h2 : n2 - n ≤ 3600) :
    (verify_token st1 c s t n2).1 = true := by
  obtain ⟨hne, ts, hget, _, heq⟩ := verify_token_true st c s t n h
  have htok : dgetD st1.session_tokens (c, s) []
      = dset (dgetD st.session_tokens (c, s) []) t n := by
    rw [hst, heq]
    simp [setTokens, dgetD_dset_self]
  unfold verify_token
  rw [htok]
  simp [hne, dget?_dset_self, not_lt.mpr h2]

/-! ### Scan lemmas for delete / edit / react -/

theorem deleteList_none (mid uid : String) (l : List Message)
    (h : ∀ m ∈ l, ¬(m.id = mid ∧ m.sender = uid)) :
    deleteList mid uid l = none := by
  induction l with
  | nil => rfl
  | cons m rest ih =>
    rw [deleteList, if_neg (h m (List.mem_cons_self m rest)),
      ih (fun m2 hm => h m2 (List.mem_cons_of_mem m hm))]
    rfl

theorem deleteList_found (mid uid : String) (pre post : List Message) (m : Message)
    (hpre : ∀ m2 ∈ pre, ¬(m2.id = mid ∧ m2.sender = uid))
    (hid : m.id = mid) (hsender : m.sender = uid) :
    deleteList mid uid (pre ++ m :: post) = some (pre ++ post) := by
  induction pre with
  | nil => simp [deleteList, hid, hsender]
  | cons a rest ih =>
    rw [List.cons_append, deleteList, if_neg (hpre a (List.mem_cons_self a rest)),
      ih (fun m2 hm => hpre m2 (List.mem_cons_of_mem a hm))]
    rfl

theorem editList_none (mid uid nt : String) (now : ℤ) (l : List Message)
    (h : ∀ m ∈ l, ¬(m.id = mid ∧ m.sender = uid)) :
    editList mid uid nt now l = none := by
  induction l with
  | nil => rfl
  | cons m rest ih =>
    rw [editList, if_neg (h m (List.mem_cons_self m rest)),
      ih (fun m2 hm => h m2 (List.mem_cons_of_mem m hm))]
    rfl

theorem editList_found (mid uid nt : String) (now : ℤ) (pre post : List Message)
    (m : Message)
    (hpre : ∀ m2 ∈ pre, ¬(m2.id = mid ∧ m2.sender = uid))
    (hid : m.id = mid) (hsender : m.sender = uid) :
    editList mid uid nt now (pre ++ m :: post)
      = some (pre ++ { m with text := some nt, edited := true, edit_timestamp := some now } :: post) := by
  induction pre with
  | nil => simp [editList, hid, hsender]
  | cons a rest ih =>
    rw [List.cons_append, editList, if_neg (hpre a (List.mem_cons_self a rest)),
      ih (fun m2 hm => hpre m2 (List.mem_cons_of_mem a hm))]
    simp

/-- `reactMsg` never changes the message id. -/
theorem reactMsg_id (m : Message) (u e : String) : (reactMsg m u e).id = m.id := by
  simp only [reactMsg]
  split <;> rfl

/-- After one `reactMsg`, the participant is in the emoji's list. -/
theorem reactMsg_mem (m : Message) (u e : String) :
    u ∈ dgetD (reactMsg m u e).reactions e [] := by
  simp only [reactMsg]
  split
  · assumption
  · simp [dgetD_dset_self]

/-- A participant already present leaves the message unchanged. -/
theorem reactMsg_noop (m : Message) (u e : String)
    (h : u ∈ dgetD m.reactions e []) : reactMsg m u e = m := by
  simp only [reactMsg]
  simp [h]

theorem reactMsg_idem (m : Message) (u e : String) :
    reactMsg (reactMsg m u e) u e = reactMsg m u e :=
  reactMsg_noop _ u e (reactMsg_mem m u e)

/-- Reacting a second time with identical arguments does not change the
message list. -/
theorem reactList_idem (mid u e : String) (l l2 : List Message)
    (h : reactList mid u e l = some l2) :
    reactList mid u e l2 = some l2 := by
  induction l generalizing l2 with
  | nil => simp [reactList] at h
  | cons m rest ih =>
    rw [reactList] at h
    by_cases hid : m.id = mid
    · rw [if_pos hid] at h
      obtain rfl : reactMsg m u e :: rest = l2 := Option.some.inj h
      rw [reactList, if_pos (by rw [reactMsg_id]; exact hid), reactMsg_idem]
    · rw [if_neg hid] at h
      match hrec : reactList mid u e rest with
      | none => rw [hrec] at h; simp at h
      | some rest2 =>
        rw [hrec] at h
        obtain rfl : m :: rest2 = l2 := by simpa using h
        rw [reactList, if_neg hid, ih rest2 hrec]
        rfl

/-! ### appendAndCount / truthy facts -/

theorem truthy_some (url : Option String) (h : truthy url = true) :
    ∃ u, url = some u ∧ u ≠ "" := by
  match url with
  | none => simp [truthy] at h
  | some u => exact ⟨u, rfl, by simpa [truthy] using h⟩

theorem appendAndCount_messages (st : ServerState) (c s : String) (m : Message) :
    dgetD (appendAndCount st c s m).messages c [] = dgetD st.messages c [] ++ [m] := by
  simp only [appendAndCount]
  simp [dgetD_dset_self]

theorem appendAndCount_unread (st : ServerState) (c s : String) (m : Message) :
    dgetD (dgetD (appendAndCount st c s m).unread_counts c []) (otherParty s) 0
      = dgetD (dgetD st.unread_counts c []) (otherParty s) 0 + 1 := by
  simp only [appendAndCount, otherParty]
  simp [dgetD_dset_self]

theorem appendAndCount_tokens (st : ServerState) (c s : String) (m : Message) :
    (appendAndCount st c s m).session_tokens = st.session_tokens := by
  simp [appendAndCount]

/-! ### Login freshness -/

/-- After `tokens_dict[token] = now` and the evict-to-2 step, the fresh
token is still present with timestamp `now`, whenever at most 2 tokens
survived the expiry prune and all of them were recorded strictly before
`now`. -/
theorem fresh_token_survives (pruned : List (String × ℤ)) (tok : String) (now : ℤ)
    (hlen : pruned.length ≤ 2) (hts : ∀ p ∈ pruned, p.2 < now) :
    dget? (if (dset pruned tok now).length > 2 then evictOldest (dset pruned tok now)
      else dset pruned tok now) tok = some now := by
  rcases pruned with _ | ⟨⟨ak, av⟩, _ | ⟨⟨bk, bv⟩, _ | ⟨c3, rest⟩⟩⟩
  · simp [dset, dget?]
  · by_cases h1 : ak = tok
    · simp [dset, dget?, h1]
    · simp [dset, dget?, h1]
  · have ha : av < now := hts (ak, av) (by simp)
    have hb : bv < now := hts (bk, bv) (by simp)
    by_cases h1 : ak = tok
    · simp [dset, dget?, h1]
    · by_cases h2 : bk = tok
      · simp [dset, dget?, h1, h2]
      · have hnb : ¬ now < bv := lt_asymm hb
        have hna : ¬ now < av := lt_asymm ha
        simp only [dset, if_neg h1, if_neg h2]
        by_cases hab : bv < av
        · by_cases h3 : ak = bk
          · simp [evictOldest, sortByTs, sortInsert, hnb, hna, hab, dpop, h3, dget?, h2]
          · simp [evictOldest, sortByTs, sortInsert, hnb, hna, hab, dpop, h3, dget?, h1, h2]
        · simp [evictOldest, sortByTs, sortInsert, hnb, hna, hab, dpop, dget?, h1, h2]
  · simp at hlen

/-- The fresh login token is present, mapped to `now`, right after a
successful login. -/
theorem login_token_present (st : ServerState) (c s : String) (now : ℤ)
    (hlen : (dgetD st.session_tokens (c, s) []).length ≤ 2)
    (hts : ∀ p ∈ dgetD st.session_tokens (c, s) [], p.2 < now) :
    dget? (dgetD (login st c "1" s now).2.session_tokens (c, s) [])
      (s ++ "-" ++ toString now) = some now := by
  cases hM : dget? st.session_tokens (c, s) with
  | none =>
    have hd : dgetD st.session_tokens (c, s) [] = [] := by simp [dgetD, hM]
    rw [hd] at hlen hts
    simp only [login, hM, hd, if_pos rfl, ite_true]
    rw [dgetD_dset_self]
    exact fresh_token_survives [] _ now (by simp) (by simp)
  | some tokens =>
    have hd : dgetD st.session_tokens (c, s) [] = tokens := by simp [dgetD, hM]
    rw [hd] at hlen hts
    simp only [login, hM, if_pos rfl, ite_true]
    rw [dgetD_dset_self, dgetD_dset_self]
    refine fresh_token_survives (pruneExpired tokens now) _ now ?_ ?_
    · exact le_trans (List.length_filter_le _ tokens) hlen
    · intro p hp
      exact hts p (List.mem_of_mem_filter hp)

/-- Issue-then-verify succeeds within the TTL. -/
theorem login_then_verify_ok (st : ServerState) (c s : String) (now n2 : ℤ)
    (hlen : (dgetD st.session_tokens (c, s) []).length ≤ 2)
    (hts : ∀ p ∈ dgetD st.session_tokens (c, s) [], p.2 < now)
    (h2 : n2 - now ≤ 3600) :
    (verify_token (login st c "1" s now).2 c s (s ++ "-" ++ toString now) n2).1 = true := by
  have hp := login_token_present st c s now hlen hts
  unfold verify_token
  simp [append_str_ne_empty s (toString now), hp, not_lt.mpr h2]

/-- Issue-then-verify fails after the TTL has passed with no refresh. -/
theorem login_then_verify_expired (st : ServerState) (c s : String) (now n2 : ℤ)
    (hlen : (dgetD st.session_tokens (c, s) []).length ≤ 2)
    (hts : ∀ p ∈ dgetD st.session_tokens (c, s) [], p.2 < now)
    (h2 : n2 - now > 3600) :
    (verify_token (login st c "1" s now).2 c s (s ++ "-" ++ toString now) n2).1 = false := by
  have hp := login_token_present st c s now hlen hts
  unfold verify_token
  simp [append_str_ne_empty s (toString now), hp, h2]

/-! ### Claim C1 — delete semantics -/

/-- Claim C1 counterexample: on the reachable run (login, send "hi"), the
sender's own delete succeeds, but afterwards the message is NOT still
present in the channel's sequence with deleted=true — the sequence is
empty, so the claim's tombstone description is false for this code. -/
theorem C1_counterexample :
    (dgetD stMsg.messages "c1" []).length = 1 ∧
    (delete_message stMsg "c1" "1001000" "user" "user-1000" 1002).1 = Resp.ok ∧
    dgetD (delete_message stMsg "c1" "1001000" "user" "user-1000" 1002).2.messages "c1" []
      = [] := by
  decide

/-- Claim C1 (amended): with a valid token, a delete whose id/sender pair
matches no stored message — in particular any delete by a non-sender —
fails with the combined 404 "Message not found or unauthorized" and leaves
the message store unchanged; a delete by the sender removes the matched
message from the sequence outright, leaving no tombstone. -/
theorem C1_delete_removal (st : ServerState) (chat_id mid uid token : String) (now : ℤ)
    (hv : (verify_token st chat_id uid token now).1 = true) :
    (verify_token st chat_id uid token now).2.messages = st.messages ∧
    ((∀ m ∈ dgetD st.messages chat_id [], ¬(m.id = mid ∧ m.sender = uid)) →
      delete_message st chat_id mid uid token now
        = (Resp.err 404 "Message not found or unauthorized",
            (verify_token st chat_id uid token now).2)) ∧
    (∀ pre m post, dgetD st.messages chat_id [] = pre ++ m :: post →
      (∀ m2 ∈ pre, ¬(m2.id = mid ∧ m2.sender = uid)) →
      m.id = mid → m.sender = uid →
      delete_message st chat_id mid uid token now
        = (Resp.ok, setChat (verify_token st chat_id uid token now).2 chat_id (pre ++ post))) := by
  have hpres := (verify_token_preserves st chat_id uid token now).1
  have hmsgs : dgetD (verify_token st chat_id uid token now).2.messages chat_id []
      = dgetD st.messages chat_id [] := by rw [hpres]
  refine ⟨hpres, ?_, ?_⟩
  · intro hnone
    have hdel := deleteList_none mid uid (dgetD st.messages chat_id []) hnone
    simp [delete_message, hv, hmsgs, hdel]
  · intro pre m post hsplit hpre hid hsender
    have hdel := deleteList_found mid uid pre post m hpre hid hsender
    rw [hsplit] at hmsgs
    simp [delete_message, hv, hmsgs, hdel, setChat]

/-- Claim C1 witness: the amended delete semantics applied on the concrete
run (owner delete of the only message). -/
theorem C1_delete_removal_witness :
    delete_message stMsg "c1" "1001000" "user" "user-1000" 1002
      = (Resp.ok, setChat (verify_token stMsg "c1" "user" "user-1000" 1002).2 "c1" []) := by
  have h := (C1_delete_removal stMsg "c1" "1001000" "user" "user-1000" 1002 (by decide)).2.2
    [] msgHi [] (by decide) (by decide) (by decide) (by decide)
  simpa using h

/-! ### Claim C2 — fetch is verbatim, no projection -/

/-- Claim C2 counterexample: on the reachable run, the fetch before the
delete shows the stored message as-is; after the sender deletes it, the
read-projection contains NO entry for that message at all — in particular
no placeholder text and no kind "deleted" — because delete removed it from
the sequence. -/
theorem C2_counterexample :
    (get_messages stMsg "c1" "user" "user-1000" 1002 false).1 = Resp.okMessages [msgHi] ∧
    (delete_message stMsg "c1" "1001000" "user" "user-1000" 1002).1 = Resp.ok ∧
    (get_messages stDel "c1" "user" "user-1000" 1003 false).1 = Resp.okMessages [] := by
  decide

/-- Claim C2 (amended): Fetch performs no projection — with a valid token a
non-active fetch returns the stored message sequence verbatim, whatever the
messages' `reply_to` fields hold (so an unresolvable reply_to yields no
error and there are never reply previews); a message deleted by its sender
was removed outright and hence does not appear in the output at all (shown
on the concrete deleted run). -/
theorem C2_fetch_no_projection :
    (∀ (st : ServerState) (chat_id viewer token : String) (now : ℤ), viewer ≠ "" →
      (verify_token st chat_id viewer token now).1 = true →
      get_messages st chat_id viewer token now false
        = (Resp.okMessages (dgetD st.messages chat_id []),
            (verify_token st chat_id viewer token now).2)) ∧
    (get_messages stDel "c1" "user" "user-1000" 1003 false).1 = Resp.okMessages [] := by
  refine ⟨?_, by decide⟩
  intro st chat_id viewer token now hviewer hv
  have hpres := (verify_token_preserves st chat_id viewer token now).1
  have hmsgs : dgetD (verify_token st chat_id viewer token now).2.messages chat_id []
      = dgetD st.messages chat_id [] := by rw [hpres]
  cases hL : (dgetD st.messages chat_id []).getLast? with
  | none => simp [get_messages, hviewer, hv, hmsgs, hL]
  | some last => simp [get_messages, hviewer, hv, hmsgs, hL]

/-- Claim C2 witness: the verbatim-fetch equation applied on the concrete
one-message state. -/
theorem C2_fetch_no_projection_witness :
    get_messages stMsg "c1" "user" "user-1000" 1002 false
      = (Resp.okMessages (dgetD stMsg.messages "c1" []),
          (verify_token stMsg "c1" "user" "user-1000" 1002).2) :=
  C2_fetch_no_projection.1 stMsg "c1" "user" "user-1000" 1002 (by decide) (by decide)

/-! ### Claim C3 — react adds only; no toggle -/

/-- Claim C3 counterexample: the stored message starts with no reactions;
after TWO reacts with identical arguments the participant is still recorded
under the emoji — the reactions are not equal to their state before the
first application, so react is not a toggle. -/
theorem C3_counterexample :
    (dgetD stMsg.messages "c1" []).map (fun m => m.reactions) = [[]] ∧
    (react stMsg "c1" "1001000" "like" "user" "user-1000" 1002).1 = Resp.ok ∧
    (react stReact "c1" "1001000" "like" "user" "user-1000" 1003).1 = Resp.ok ∧
    (dgetD (react stReact "c1" "1001000" "like" "user" "user-1000" 1003).2.messages "c1" []).map
        (fun m => m.reactions)
      = [[("like", ["user"])]] := by
  decide

/-- Claim C3 (amended): react only adds membership — a participant already
in reactions[emoji] leaves the message unchanged (nothing is ever removed
and no emoji key is pruned), otherwise the participant is appended; hence
react is idempotent: a second identical react leaves the message store
exactly as it was after the first, not as it was before it. -/
theorem C3_react_add_only (st : ServerState) (chat_id mid uid emoji token : String)
    (now1 now2 : ℤ)
    (hv : (verify_token st chat_id uid token now1).1 = true)
    (hgap : now2 - now1 ≤ 3600) :
    (∀ m : Message, uid ∈ dgetD (reactMsg m uid emoji).reactions emoji []) ∧
    (∀ m : Message, uid ∈ dgetD m.reactions emoji [] → reactMsg m uid emoji = m) ∧
    (react (react st chat_id mid emoji uid token now1).2 chat_id mid emoji uid token now2).2.messages
      = (react st chat_id mid emoji uid token now1).2.messages := by
  refine ⟨fun m => reactMsg_mem m uid emoji, fun m h => reactMsg_noop m uid emoji h, ?_⟩
  cases hRL : reactList mid uid emoji
      (dgetD (verify_token st chat_id uid token now1).2.messages chat_id []) with
  | none =>
    have hst1 : (react st chat_id mid emoji uid token now1).2
        = (verify_token st chat_id uid token now1).2 := by
      simp [react, hv, hRL]
    rw [hst1]
    have hw : (verify_token (verify_token st chat_id uid token now1).2
        chat_id uid token now2).1 = true :=
      verify_token_again st _ chat_id uid token now1 now2 hv rfl hgap
    have hwp := (verify_token_preserves (verify_token st chat_id uid token now1).2
      chat_id uid token now2).1
    have hRL2 : reactList mid uid emoji
        (dgetD (verify_token (verify_token st chat_id uid token now1).2
          chat_id uid token now2).2.messages chat_id []) = none := by
      rw [hwp, hRL]
    simp [react, hw, hRL, hRL2, hwp]
  | some l =>
    have hst1m : (react st chat_id mid emoji uid token now1).2.messages
        = dset (verify_token st chat_id uid token now1).2.messages chat_id l := by
      simp [react, hv, hRL]
    have hst1tok : (react st chat_id mid emoji uid token now1).2.session_tokens
        = (verify_token st chat_id uid token now1).2.session_tokens := by
      simp [react, hv, hRL]
    set stR := (react st chat_id mid emoji uid token now1).2 with hR
    have hw : (verify_token stR chat_id uid token now2).1 = true :=
      verify_token_again st stR chat_id uid token now1 now2 hv hst1tok hgap
    have hwp := (verify_token_preserves stR chat_id uid token now2).1
    have hRL2 : reactList mid uid emoji
        (dgetD (verify_token stR chat_id uid token now2).2.messages chat_id []) = some l := by
      rw [hwp, hst1m, dgetD_dset_self]
      exact reactList_idem mid uid emoji _ l hRL
    have hfinal : (react stR chat_id mid emoji uid token now2).2.messages
        = dset (verify_token stR chat_id uid token now2).2.messages chat_id l := by
      simp [react, hw, hRL2]
    rw [hfinal, hwp, hst1m, dset_dset_self]

/-- Claim C3 witness: react-twice idempotence on the concrete run. -/
theorem C3_react_add_only_witness :
    (react (react stMsg "c1" "1001000" "like" "user" "user-1000" 1002).2
        "c1" "1001000" "like" "user" "user-1000" 1003).2.messages
      = (react stMsg "c1" "1001000" "like" "user" "user-1000" 1002).2.messages :=
  (C3_react_add_only stMsg "c1" "1001000" "user" "like" "user-1000" 1002 1003
    (by decide) (by decide)).2.2

/-! ### Claim C4 — which operations the token gate covers -/

/-- Claim C4 counterexample: `get_unread_count` is a channel-reading
operation other than `is_online` and login, yet it takes no token at all
and succeeds; and `logout` invoked with an unknown token succeeds (state
unchanged) instead of returning Unauthorized. -/
theorem C4_counterexample :
    get_unread_count stMsg "c1" "agent" = (Resp.okCount 1, stMsg) ∧
    logout stMsg "c1" "user" "unknown-token" = (Resp.ok, stMsg) := by
  decide

/-- Claim C4 (amended): every channel-mutating or channel-reading operation
except `is_online`, `login`, `get_unread_count` and `logout` is gated by
token verification — on a failed verification it returns its Unauthorized
error and the state is exactly the post-verification state, which differs
from the original at most by eviction of the presented expired token;
`get_unread_count` answers with no token at all, and `logout` never returns
Unauthorized. -/
theorem C4_auth_gate :
    (∀ (st st2 : ServerState) (c s token : String) (now : ℤ) (ty url text reply : Option String),
      verify_token st c s token now = (false, st2) →
      send st c s token now ty url text reply = (Resp.err 403 "Unauthorized", st2)) ∧
    (∀ (st st2 : ServerState) (c mid r u token : String) (now : ℤ),
      verify_token st c u token now = (false, st2) →
      react st c mid r u token now = (Resp.err 403 "Unauthorized", st2)) ∧
    (∀ (st st2 : ServerState) (c mid u token : String) (now : ℤ),
      verify_token st c u token now = (false, st2) →
      delete_message st c mid u token now = (Resp.err 403 "Unauthorized", st2)) ∧
    (∀ (st st2 : ServerState) (c mid nt u token : String) (now : ℤ),
      verify_token st c u token now = (false, st2) →
      edit_message st c mid nt u token now = (Resp.err 403 "Unauthorized", st2)) ∧
    (∀ (st st2 : ServerState) (c viewer token : String) (now : ℤ) (active : Bool),
      viewer ≠ "" → verify_token st c viewer token now = (false, st2) →
      get_messages st c viewer token now active
        = (Resp.err 403 "Session expired or invalid", st2)) ∧
    (∀ (st st2 : ServerState) (c s text token : String) (now : ℤ),
      verify_token st c s token now = (false, st2) →
      live_typing st c s text token now = (Resp.err 403 "Unauthorized", st2)) ∧
    (∀ (st st2 : ServerState) (c viewer token : String) (now : ℤ),
      viewer ≠ "" → verify_token st c viewer token now = (false, st2) →
      get_live_typing st c viewer token now
        = (Resp.err 403 "Session expired or invalid", st2)) ∧
    (∀ (st st2 : ServerState) (c s token : String) (now : ℤ),
      verify_token st c s token now = (false, st2) →
      mark_online st c s token now = (Resp.err 403 "Unauthorized", st2)) ∧
    (∀ (st st2 : ServerState) (c s token : String) (now : ℤ),
      verify_token st c s token now = (false, st2) →
      clear_chat st c s token now = (Resp.err 403 "Unauthorized", st2)) ∧
    (∀ (st : ServerState) (c s token : String) (now : ℤ),
      (verify_token st c s token now).1 = false →
      (verify_token st c s token now).2 = st ∨
      ∃ ts, dget? (dgetD st.session_tokens (c, s) []) token = some ts ∧ now - ts > 3600 ∧
        (verify_token st c s token now).2
          = setTokens st (c, s) (dpop (dgetD st.session_tokens (c, s) []) token)) ∧
    (∀ (st : ServerState) (c u : String),
      get_unread_count st c u
        = (Resp.okCount (dgetD (dgetD st.unread_counts c []) u 0), st)) ∧
    (∀ (st : ServerState) (c s token : String), (logout st c s token).1 = Resp.ok) := by
  refine ⟨?_, ?_, ?_, ?_, ?_, ?_, ?_, ?_, ?_, ?_, ?_, ?_⟩
  · intro st st2 c s token now ty url text reply h
    simp [send, h]
  · intro st st2 c mid r u token now h
    simp [react, h]
  · intro st st2 c mid u token now h
    simp [delete_message, h]
  · intro st st2 c mid nt u token now h
    simp [edit_message, h]
  · intro st st2 c viewer token now active hviewer h
    simp [get_messages, hviewer, h]
  · intro st st2 c s text token now h
    simp [live_typing, h]
  · intro st st2 c viewer token now hviewer h
    simp [get_live_typing, hviewer, h]
  · intro st st2 c s token now h
    simp [mark_online, h]
  · intro st st2 c s token now h
    simp [clear_chat, h]
  · intro st c s token now h
    exact verify_token_false st c s token now h
  · intro st c u
    rfl
  · intro st c s token
    unfold logout
    cases dget? st.session_tokens (c, s) <;> rfl

/-- Claim C4 witness: the gate refusals and ungated successes on concrete
inputs. -/
theorem C4_auth_gate_witness :
    send stMsg "c1" "user" "bad" 1002 none none (some "x") none
      = (Resp.err 403 "Unauthorized", stMsg) ∧
    get_messages stMsg "c1" "user" "bad" 1002 true
      = (Resp.err 403 "Session expired or invalid", stMsg) ∧
    get_unread_count stMsg "c1" "agent" = (Resp.okCount (dgetD (dgetD stMsg.unread_counts "c1" []) "agent" 0), stMsg) ∧
    (logout stMsg "c1" "user" "bad").1 = Resp.ok := by
  obtain ⟨hsend, hreact, hdel, hedit, hget, htyp, hgtyp, hmark, hclear, hver, huc, hlo⟩ :=
    C4_auth_gate
  exact ⟨hsend stMsg stMsg "c1" "user" "bad" 1002 none none (some "x") none (by decide),
    hget stMsg stMsg "c1" "user" "bad" 1002 true (by decide) (by decide),
    huc stMsg "c1" "agent",
    hlo stMsg "c1" "user" "bad"⟩

/-! ### Claim C5 — token issuance -/

/-- Claim C5 counterexample: with token "user-1000" (issued at clock
reading 1000) still live, a second successful login whose clock reading has
the same integer part returns the SAME token string — not a fresh token
distinct from every live one — and the key still holds a single token
afterwards (the entry was overwritten, not added). -/
theorem C5_counterexample :
    dget? (dgetD stLogin.session_tokens ("c1", "user") []) "user-1000" = some 1000 ∧
    (login stLogin "c1" "1" "user" 1000).1 = Resp.okToken "user-1000" ∧
    (dgetD (login stLogin "c1" "1" "user" 1000).2.session_tokens ("c1", "user") []).length
      = 1 := by
  decide

/-- Claim C5 (amended): each successful issue returns the deterministic
token `sender-int(now)` — fresh only when no live token was issued at a
clock reading with the same integer part (otherwise it coincides with that
token and overwrites it); on the concrete three-issuance run at distinct
seconds 1000/2000/3000 from an empty registry, each issued token is new,
and the third issuance evicts the oldest token leaving exactly the two most
recent. -/
theorem C5_login_token_policy :
    (∀ (st : ServerState) (chat_id sender : String) (now : ℤ),
      (login st chat_id "1" sender now).1 = Resp.okToken (sender ++ "-" ++ toString now)) ∧
    dgetD (login (login ServerState.empty "c1" "1" "user" 1000).2
        "c1" "1" "user" 2000).2.session_tokens ("c1", "user") []
      = [("user-1000", 1000), ("user-2000", 2000)] ∧
    dgetD (login (login (login ServerState.empty "c1" "1" "user" 1000).2
        "c1" "1" "user" 2000).2 "c1" "1" "user" 3000).2.session_tokens ("c1", "user") []
      = [("user-2000", 2000), ("user-3000", 3000)] := by
  refine ⟨?_, by decide, by decide⟩
  intro st chat_id sender now
  simp [login]

/-! ### Claim C6 — edit semantics -/

/-- Claim C6 counterexample: the owner edits with new_text = "" and the
edit SUCCEEDS, storing the empty text — there is no EmptyContent
validation in `edit_message`. -/
theorem C6_counterexample :
    (edit_message stMsg "c1" "1001000" "" "user" "user-1000" 1002).1 = Resp.ok ∧
    (dgetD (edit_message stMsg "c1" "1001000" "" "user" "user-1000" 1002).2.messages "c1" []).map
        (fun m => m.text)
      = [some ""] := by
  decide

/-- Claim C6 (amended): with a valid token, edit fails with the combined
404 "Message not found or unauthorized" both when the id is absent and when
the editor is not the sender (no distinct Forbidden); new_text is not
validated or trimmed — any string including the empty one is stored
verbatim; on success the matched message gets text := new_text,
edited := true and edit_timestamp := now. -/
theorem C6_edit_semantics (st : ServerState) (chat_id mid new_text uid token : String)
    (now : ℤ) (hv : (verify_token st chat_id uid token now).1 = true) :
    ((∀ m ∈ dgetD st.messages chat_id [], ¬(m.id = mid ∧ m.sender = uid)) →
      edit_message st chat_id mid new_text uid token now
        = (Resp.err 404 "Message not found or unauthorized",
            (verify_token st chat_id uid token now).2)) ∧
    (∀ pre m post, dgetD st.messages chat_id [] = pre ++ m :: post →
      (∀ m2 ∈ pre, ¬(m2.id = mid ∧ m2.sender = uid)) →
      m.id = mid → m.sender = uid →
      edit_message st chat_id mid new_text uid token now
        = (Resp.ok, setChat (verify_token st chat_id uid token now).2 chat_id
            (pre ++ { m with text := some new_text, edited := true, edit_timestamp := some now } :: post))) := by
  have hpres := (verify_token_preserves st chat_id uid token now).1
  have hmsgs : dgetD (verify_token st chat_id uid token now).2.messages chat_id []
      = dgetD st.messages chat_id [] := by rw [hpres]
  refine ⟨?_, ?_⟩
  · intro hnone
    have hed := editList_none mid uid new_text now (dgetD st.messages chat_id []) hnone
    simp [edit_message, hv, hmsgs, hed]
  · intro pre m post hsplit hpre hid hsender
    have hed := editList_found mid uid new_text now pre post m hpre hid hsender
    rw [hsplit] at hmsgs
    simp [edit_message, hv, hmsgs, hed, setChat]

/-- Claim C6 witness: the amended edit semantics applied on the concrete
run (owner edit of the only message, storing "" verbatim). -/
theorem C6_edit_semantics_witness :
    edit_message stMsg "c1" "1001000" "" "user" "user-1000" 1002
      = (Resp.ok, setChat (verify_token stMsg "c1" "user" "user-1000" 1002).2 "c1"
          [{ msgHi with text := some "", edited := true, edit_timestamp := some 1002 }]) := by
  have h := (C6_edit_semantics stMsg "c1" "1001000" "" "user" "user-1000" 1002 (by decide)).2
    [] msgHi [] (by decide) (by decide) (by decide) (by decide)
  simpa using h

/-! ### Claim C7 — verify_and_refresh -/

/-- Claim C7: `verify_token` returns false when the token is absent;
returns false and evicts the token when its timestamp is older than
TOKEN_TTL (3600 s); otherwise refreshes the timestamp to `now` and returns
true.  Hence issue (login) followed immediately by verification of the
returned token succeeds, and verifying it again after TTL+1 seconds of
inactivity fails.  The expiry/success equations take the token nonempty
(every token the registry stores has the nonempty form `sender-int(now)`),
and the issue-then-verify parts take the key's live-token dict in the shape
the registry itself maintains: at most 2 tokens, all recorded strictly
before `now`. -/
theorem C7_verify_and_refresh (st : ServerState) (chat_id sender token : String) (now : ℤ) :
    (dget? (dgetD st.session_tokens (chat_id, sender) []) token = none →
      verify_token st chat_id sender token now = (false, st)) ∧
    (∀ ts, token ≠ "" →
      dget? (dgetD st.session_tokens (chat_id, sender) []) token = some ts →
      now - ts > 3600 →
      verify_token st chat_id sender token now
        = (false, setTokens st (chat_id, sender)
            (dpop (dgetD st.session_tokens (chat_id, sender) []) token))) ∧
    (∀ ts, token ≠ "" →
      dget? (dgetD st.session_tokens (chat_id, sender) []) token = some ts →
      ¬ now - ts > 3600 →
      verify_token st chat_id sender token now
        = (true, setTokens st (chat_id, sender)
            (dset (dgetD st.session_tokens (chat_id, sender) []) token now))) ∧
    ((dgetD st.session_tokens (chat_id, sender) []).length ≤ 2 →
     (∀ p ∈ dgetD st.session_tokens (chat_id, sender) [], p.2 < now) →
      (login st chat_id "1" sender now).1
          = Resp.okToken (sender ++ "-" ++ toString now) ∧
      (verify_token (login st chat_id "1" sender now).2 chat_id sender
          (sender ++ "-" ++ toString now) now).1 = true ∧
      (verify_token (login st chat_id "1" sender now).2 chat_id sender
          (sender ++ "-" ++ toString now) (now + 3601)).1 = false) := by
  refine ⟨?_, ?_, ?_, ?_⟩
  · intro h
    unfold verify_token
    by_cases he : token = ""
    · simp [he]
    · simp [he, h]
  · intro ts hne hget hexp
    unfold verify_token
    simp [hne, hget, hexp, setTokens]
  · intro ts hne hget hexp
    unfold verify_token
    simp [hne, hget, hexp, setTokens]
  · intro hlen hts
    refine ⟨by simp [login], ?_, ?_⟩
    · exact login_then_verify_ok st chat_id sender now now hlen hts (by omega)
    · exact login_then_verify_expired st chat_id sender now (now + 3601) hlen hts (by omega)

/-- Claim C7 witness: all four parts at concrete inputs (token of `stLogin`
issued at 1000; fresh login at 1001). -/
theorem C7_verify_and_refresh_witness :
    verify_token stLogin "c1" "user" "nope" 1001 = (false, stLogin) ∧
    verify_token stLogin "c1" "user" "user-1000" 4602
      = (false, setTokens stLogin ("c1", "user")
          (dpop (dgetD stLogin.session_tokens ("c1", "user") []) "user-1000")) ∧
    verify_token stLogin "c1" "user" "user-1000" 1001
      = (true, setTokens stLogin ("c1", "user")
          (dset (dgetD stLogin.session_tokens ("c1", "user") []) "user-1000" 1001)) ∧
    (login stLogin "c1" "1" "user" 1001).1 = Resp.okToken "user-1001" ∧
    (verify_token (login stLogin "c1" "1" "user" 1001).2 "c1" "user" "user-1001" 1001).1
      = true ∧
    (verify_token (login stLogin "c1" "1" "user" 1001).2 "c1" "user" "user-1001" 4602).1
      = false := by
  have h1 := (C7_verify_and_refresh stLogin "c1" "user" "nope" 1001).1 (by decide)
  have h2 := (C7_verify_and_refresh stLogin "c1" "user" "user-1000" 4602).2.1
    1000 (by decide) (by decide) (by decide)
  have h3 := (C7_verify_and_refresh stLogin "c1" "user" "user-1000" 1001).2.2.1
    1000 (by decide) (by decide) (by decide)
  have h4 := (C7_verify_and_refresh stLogin "c1" "user" "x" 1001).2.2.2
    (by decide) (by decide)
  exact ⟨h1, h2, h3, h4.1, h4.2.1, h4.2.2⟩

/-! ### Claim C8 — unread counters and mark-seen -/

/-- Successful sends append exactly one message, of one of the two payload
shapes the code constructs. -/
theorem send_ok_shape (st : ServerState) (c s token : String) (now : ℤ)
    (ty url text reply : Option String)
    (h : (send st c s token now ty url text reply).1 = Resp.ok) :
    (verify_token st c s token now).1 = true ∧
    ∃ m : Message,
      (send st c s token now ty url text reply).2
        = appendAndCount (verify_token st c s token now).2 c s m ∧
      ((ty = some "image" ∧ truthy url = true ∧ m.type = "image" ∧ m.url = url ∧ m.text = none) ∨
       (m.type = "text" ∧ m.url = none ∧ m.text = some (pyStrip (text.getD ""))
          ∧ pyStrip (text.getD "") ≠ "")) := by
  by_cases hv : (verify_token st c s token now).1 = true
  · refine ⟨hv, ?_⟩
    by_cases himg : ty = some "image" ∧ truthy url = true
    · have he : (send st c s token now ty url text reply).2
          = appendAndCount (verify_token st c s token now).2 c s
            { id := generate_message_id now, sender := s, timestamp := now, seen_by := none, reactions := [], reply_to := reply, type := "image", text := none, url := url, edited := false, edit_timestamp := none } := by
        simp [send, hv, himg]
      exact ⟨_, he, Or.inl ⟨himg.1, himg.2, rfl, rfl, rfl⟩⟩
    · by_cases ht : pyStrip (text.getD "") = ""
      · exfalso
        simp [send, hv, himg, ht] at h
      · have he : (send st c s token now ty url text reply).2
            = appendAndCount (verify_token st c s token now).2 c s
              { id := generate_message_id now, sender := s, timestamp := now, seen_by := none, reactions := [], reply_to := reply, type := "text", text := some (pyStrip (text.getD "")), url := none, edited := false, edit_timestamp := none } := by
          simp [send, hv, himg, ht]
        exact ⟨_, he, Or.inr ⟨rfl, rfl, rfl, ht⟩⟩
  · exfalso
    simp [send, hv] at h

/-- Claim C8: a successful send increments the non-sending participant's
unread counter by exactly 1; a Fetch with mark_active=true whose last
stored message was sent by someone other than the viewer, with no prior
seen_by, marks that message seen by the viewer and leaves the viewer's
unread counter for the channel at 0. -/
theorem C8_unread_flow :
    (∀ (st : ServerState) (c s token : String) (now : ℤ) (ty url text reply : Option String),
      (send st c s token now ty url text reply).1 = Resp.ok →
      dgetD (dgetD (send st c s token now ty url text reply).2.unread_counts c [])
          (otherParty s) 0
        = dgetD (dgetD st.unread_counts c []) (otherParty s) 0 + 1) ∧
    (∀ (st : ServerState) (c viewer token : String) (now : ℤ) (pre : List Message)
        (last : Message),
      viewer ≠ "" →
      (verify_token st c viewer token now).1 = true →
      dgetD st.messages c [] = pre ++ [last] →
      last.sender ≠ viewer → last.seen_by = none →
      (get_messages st c viewer token now true).1
          = Resp.okMessages (pre ++ [{ last with seen_by := some viewer }]) ∧
      dgetD (get_messages st c viewer token now true).2.messages c []
          = pre ++ [{ last with seen_by := some viewer }] ∧
      dgetD (dgetD (get_messages st c viewer token now true).2.unread_counts c []) viewer 0
          = 0) := by
  refine ⟨?_, ?_⟩
  · intro st c s token now ty url text reply h
    obtain ⟨hv, m, he, _⟩ := send_ok_shape st c s token now ty url text reply h
    rw [he, appendAndCount_unread, (verify_token_preserves st c s token now).2.2.2]
  · intro st c viewer token now pre last hviewer hv hchat hsender hseen
    have hpresm := (verify_token_preserves st c viewer token now).1
    have hpresu := (verify_token_preserves st c viewer token now).2.2.2
    have hchat2 : dgetD (verify_token st c viewer token now).2.messages c []
        = pre ++ [last] := by rw [hpresm, hchat]
    have hlast : (pre ++ [last]).getLast? = some last := List.getLast?_concat _
    have hdrop : (pre ++ [last]).dropLast = pre := List.dropLast_concat
    cases hu : dget? (dgetD st.unread_counts c []) viewer with
    | none =>
      refine ⟨?_, ?_, ?_⟩ <;>
        simp [get_messages, hviewer, hv, hchat2, hlast, hdrop, hsender, hpresu, hu,
          dgetD_dset_self, dgetD_of_dget?_none]
    | some n =>
      refine ⟨?_, ?_, ?_⟩ <;>
        simp [get_messages, hviewer, hv, hchat2, hlast, hdrop, hsender, hpresu, hu,
          dgetD_dset_self]

/-- Claim C8 witness: the send at time 1001 raises the agent's counter from
0 to 1; the agent's active fetch marks the message seen and leaves the
counter at 0. -/
theorem C8_unread_flow_witness :
    dgetD (dgetD stMsg.unread_counts "c1" []) "agent" 0
      = dgetD (dgetD stLogin.unread_counts "c1" []) "agent" 0 + 1 ∧
    (get_messages stBoth "c1" "agent" "agent-1001" 1002 true).1
      = Resp.okMessages [{ msgHi with seen_by := some "agent" }] ∧
    dgetD (dgetD (get_messages stBoth "c1" "agent" "agent-1001" 1002 true).2.unread_counts
        "c1" []) "agent" 0 = 0 := by
  have ha := C8_unread_flow.1 stLogin "c1" "user" "user-1000" 1001 none none (some "hi") none
    (by decide)
  have hb := C8_unread_flow.2 stBoth "c1" "agent" "agent-1001" 1002 [] msgHi
    (by decide) (by decide) (by decide) (by decide) (by decide)
  exact ⟨ha, by simpa using hb.1, hb.2.2⟩

/-! ### Claim C9 — exactly-one-payload invariant -/

/-- Claim C9 counterexample: a reachable run (login, send image, owner
edit) yields a stored, non-deleted message with BOTH a live text and a live
url — the invariant is not preserved by edit. -/
theorem C9_counterexample :
    (send stLogin "c1" "user" "user-1000" 1001 (some "image") (some "u") none none).1
      = Resp.ok ∧
    (edit_message stImg "c1" "1001000" "newtext" "user" "user-1000" 1002).1 = Resp.ok ∧
    (dgetD stImgEdited.messages "c1" []).map (fun m => (m.type, m.text, m.url))
      = [("image", some "newtext", some "u")] := by
  decide

/-- Claim C9 (amended): every message freshly created by send satisfies the
exactly-one-payload invariant — a nonempty text and no url for kind "text",
a nonempty url and no text for kind "image" — but edit writes text
unconditionally, so editing a kind="image" message leaves both text and url
present (shown on the concrete reachable run). -/
theorem C9_payload_invariant :
    (∀ (st : ServerState) (c s token : String) (now : ℤ) (ty url text reply : Option String),
      (send st c s token now ty url text reply).1 = Resp.ok →
      ∃ m : Message,
        dgetD (send st c s token now ty url text reply).2.messages c []
          = dgetD st.messages c [] ++ [m] ∧
        ((m.type = "text" ∧ m.url = none ∧ ∃ t, m.text = some t ∧ t ≠ "") ∨
         (m.type = "image" ∧ m.text = none ∧ ∃ u, m.url = some u ∧ u ≠ ""))) ∧
    (dgetD stImgEdited.messages "c1" []).map (fun m => (m.type, m.text, m.url))
      = [("image", some "newtext", some "u")] := by
  refine ⟨?_, by decide⟩
  intro st c s token now ty url text reply h
  obtain ⟨hv, m, he, hshape⟩ := send_ok_shape st c s token now ty url text reply h
  refine ⟨m, ?_, ?_⟩
  · rw [he, appendAndCount_messages, (verify_token_preserves st c s token now).1]
  · rcases hshape with ⟨_, hurl, hty, hu, htx⟩ | ⟨hty, hu, htx, hne⟩
    · obtain ⟨u, huu, hune⟩ := truthy_some url hurl
      exact Or.inr ⟨hty, htx, u, by rw [hu, huu], hune⟩
    · exact Or.inl ⟨hty, hu, pyStrip (text.getD ""), htx, hne⟩

/-- Claim C9 witness: the send-side invariant applied on the concrete image
send. -/
theorem C9_payload_invariant_witness :
    ∃ m : Message,
      dgetD stImg.messages "c1" [] = dgetD stLogin.messages "c1" [] ++ [m] ∧
      ((m.type = "text" ∧ m.url = none ∧ ∃ t, m.text = some t ∧ t ≠ "") ∨
       (m.type = "image" ∧ m.text = none ∧ ∃ u, m.url = some u ∧ u ≠ "")) :=
  C9_payload_invariant.1 stLogin "c1" "user" "user-1000" 1001
    (some "image") (some "u") none none (by decide)

/-! ### Claim C10 — image send without a url falls back to text rules -/

/-- Claim C10: a send declaring type "image" whose url is absent or empty
is validated under the text rules instead — it fails with the Empty-message
error unless a non-empty trimmed text was supplied, in which case a
kind="text" message is created; no distinct missing-url error exists. -/
theorem C10_image_without_url (st : ServerState) (c s token : String) (now : ℤ)
    (url text reply : Option String)
    (hv : (verify_token st c s token now).1 = true)
    (hurl : url = none ∨ url = some "") :
    (pyStrip (text.getD "") = "" →
      send st c s token now (some "image") url text reply
        = (Resp.err 400 "Empty message", (verify_token st c s token now).2)) ∧
    (pyStrip (text.getD "") ≠ "" →
      (send st c s token now (some "image") url text reply).1 = Resp.ok ∧
      ∃ m : Message,
        dgetD (send st c s token now (some "image") url text reply).2.messages c []
          = dgetD st.messages c [] ++ [m] ∧
        m.type = "text" ∧ m.text = some (pyStrip (text.getD ""))) := by
  have htr : truthy url = false := by
    rcases hurl with rfl | rfl <;> simp [truthy]
  have himg : ¬(some "image" = some "image" ∧ truthy url = true) := by
    simp [htr]
  refine ⟨?_, ?_⟩
  · intro ht
    simp [send, hv, himg, ht, htr]
  · intro ht
    have hok : (send st c s token now (some "image") url text reply).1 = Resp.ok := by
      simp [send, hv, himg, ht, htr]
    refine ⟨hok, ?_⟩
    obtain ⟨_, m, he, hshape⟩ := send_ok_shape st c s token now (some "image") url text reply hok
    refine ⟨m, ?_, ?_⟩
    · rw [he, appendAndCount_messages, (verify_token_preserves st c s token now).1]
    · rcases hshape with ⟨_, hurl2, _⟩ | ⟨hty, _, htx, _⟩
      · rw [htr] at hurl2
        cases hurl2
      · exact ⟨hty, htx⟩

/-- Claim C10 witness: an image-send with an empty url and text " hi "
creates a kind="text" message with the stripped text; one with no text at
all fails with the Empty-message error. -/
theorem C10_image_without_url_witness :
    send stLogin "c1" "user" "user-1000" 1001 (some "image") (some "") none none
      = (Resp.err 400 "Empty message", (verify_token stLogin "c1" "user" "user-1000" 1001).2) ∧
    (send stLogin "c1" "user" "user-1000" 1001 (some "image") none (some " hi ") none).1
      = Resp.ok := by
  refine ⟨?_, ?_⟩
  · exact (C10_image_without_url stLogin "c1" "user" "user-1000" 1001 (some "") none none
      (by decide) (Or.inr rfl)).1 (by decide)
  · exact ((C10_image_without_url stLogin "c1" "user" "user-1000" 1001 none (some " hi ") none
      (by decide) (Or.inl rfl)).2 (by decide)).1

end ChatApp
